/-
Verification of the Authentication & Credential-Recovery subsystem of the
hamburgeria backend (Express + Prisma, TypeScript).

Shallow embedding conventions:
* The Prisma-backed user table is a `List DbUser`; `prisma.user.findUnique /
  findFirst` become `List.find?`, `prisma.user.update` becomes a keyed
  `List.map` (erroring with Prisma's `P2025` when no row matches the key),
  and `prisma.user.create` appends (erroring with `P2002` on a unique-email
  violation).
* Timestamps (`Date`) are milliseconds since the epoch, as `Int`.
* `bcrypt.hash(p, rounds)` is an explicit function parameter
  `bhash : Nat → String → String`; `bcrypt.compare` is a parameter
  `bverify : String → String → Bool`.
* Thrown `Error(message)` values are `Except.error message`; services return
  `Except String α`, paired with the resulting store where they write.
* JS objects whose *key set* matters (the `{password: _, ...rest}` spread in
  the register/login responses) are association lists `List (String × FieldVal)`.
-/
import Mathlib

namespace Hamburgeria

/-- A JSON-ish scalar stored in a user row column. -/
inductive FieldVal where
  | vStr (s : String)
  | vInt (i : Int)
  | vNull
deriving DecidableEq, Repr

/-- Modelled from the spec: the Prisma `User` model (the live `schema.prisma`
is not in the source tree; the README copies predate the reset flow).
Spec §3 gives `id`, `email`, `passwordHash` (the `password` column),
`resetToken` and `resetTokenExpiry` (both nullable); the source's
`create`/`select` calls additionally use `name`, `cep` and `telefone`. -/
structure DbUser where
  id : String
  name : Option String
  email : String
  password : String
  cep : String
  telefone : String
  resetToken : Option String
  resetTokenExpiry : Option Int
deriving DecidableEq, Repr

/-- The user table. -/
abbrev Store := List DbUser

/-- The scalar columns of a row, in model order, as returned by a Prisma
query without `select` (e.g. `prisma.user.create` in `createUser`). -/
def rowFields (u : DbUser) : List (String × FieldVal) :=
  [ ("id", .vStr u.id)
  , ("name", match u.name with | some n => .vStr n | none => .vNull)
  , ("email", .vStr u.email)
  , ("password", .vStr u.password)
  , ("cep", .vStr u.cep)
  , ("telefone", .vStr u.telefone)
  , ("resetToken", match u.resetToken with | some t => .vStr t | none => .vNull)
  , ("resetTokenExpiry", match u.resetTokenExpiry with | some e => .vInt e | none => .vNull) ]

/-- `const { password: _, ...userWithoutPassword } = newUser` —
the destructuring spread drops exactly the `password` key and keeps
every other key of the row (auth.service.ts line 130, line 194). -/
def userWithoutPassword (u : DbUser) : List (String × FieldVal) :=
  (rowFields u).filter (fun kv => kv.1 ≠ "password")

/-- Environment variables read by the subsystem (`process.env`).
A missing variable is `none`; JS also treats `""` as falsy where the code
tests truthiness. -/
structure Env where
  jwtSecret : Option String
  jwtExpiresInMs : Option Int
deriving DecidableEq, Repr

/-- jwt.util.ts lines 34-35: `process.env["JWT_SECRET"] ?? "your-secret-key-change-in-production"`.
The nullish coalescing keeps an empty string. -/
def jwtUtilSecret (env : Env) : String :=
  env.jwtSecret.getD "your-secret-key-change-in-production"

/-- auth.middleware.ts lines 31-37 (`getJwtSecret`): throws when
`process.env["JWT_SECRET"]` is falsy (absent or empty). -/
def getJwtSecret (env : Env) : Except String String :=
  match env.jwtSecret with
  | none => .error "JWT_SECRET não definido nas variáveis de ambiente"
  | some s =>
      if s = "" then .error "JWT_SECRET não definido nas variáveis de ambiente"
      else .ok s

/-- Startup of the backend process. Modelled from the source import graph:
`server.ts` statically imports `auth_routes.ts` (and `auth.routes.logOut.ts`
behaviour is identical), which imports `auth.middleware.ts`; that module's
top level evaluates `const JWT_SECRET = getJwtSecret();` (line 40) before any
request can be served, so module initialisation is part of startup and an
exception there is fatal. -/
def serverStartup (env : Env) : Except String Unit :=
  match getJwtSecret env with
  | .error e => .error e
  | .ok _ => .ok ()

/-- A signed session token as produced by `jwt.sign` in jwt.util.ts:
the claims `{userId, email}` plus `iat`/`exp`, signed with the module's
secret. -/
structure Jwt where
  userId : String
  email : String
  iatMs : Int
  expMs : Int
  signedWith : String
deriving DecidableEq, Repr

/-- jwt.util.ts `generateToken`: signs `{userId, email}` with `JWT_SECRET`
and `expiresIn = JWT_EXPIRES_IN` (default one day). -/
def generateToken (env : Env) (now : Int) (userId email : String) : Jwt :=
  { userId := userId
  , email := email
  , iatMs := now
  , expMs := now + env.jwtExpiresInMs.getD 86400000
  , signedWith := jwtUtilSecret env }

-- ======================================================
-- user.repository.ts
-- ======================================================

/-- user.repository.ts `findUserByEmail` (`prisma.user.findUnique where email`). -/
def findUserByEmail (s : Store) (email : String) : Option DbUser :=
  s.find? (fun u => u.email == email)

/-- The `select` projection used by `findUserByEmailWithPassword`. -/
structure LoginRow where
  id : String
  email : String
  password : String
  name : Option String
  cep : String
  telefone : String
deriving DecidableEq, Repr

/-- Projection of a row to the login `select` column set. -/
def toLoginRow (u : DbUser) : LoginRow :=
  { id := u.id, email := u.email, password := u.password
  , name := u.name, cep := u.cep, telefone := u.telefone }

/-- user.repository.ts `findUserByEmailWithPassword` (`findFirst where email`,
select id/email/password/name/cep/telefone). -/
def findUserByEmailWithPassword (s : Store) (email : String) : Option LoginRow :=
  (s.find? (fun u => u.email == email)).map toLoginRow

/-- user.repository.ts `CreateUserData`. -/
structure CreateUserData where
  name : Option String
  email : String
  password : String
  cep : String
  telefone : String
deriving DecidableEq, Repr

/-- user.repository.ts `createUser` (`prisma.user.create`). The store's
unique constraint on `email` surfaces as Prisma error code `P2002`; the
reset-token columns of a fresh row are null. The fresh primary key `newId`
is supplied by the database. -/
def createUser (newId : String) (s : Store) (data : CreateUserData) :
    Except String (DbUser × Store) :=
  if s.any (fun u => u.email == data.email) then
    .error "P2002"
  else
    let u : DbUser :=
      { id := newId, name := data.name, email := data.email
      , password := data.password, cep := data.cep, telefone := data.telefone
      , resetToken := none, resetTokenExpiry := none }
    .ok (u, s ++ [u])

/-- user.repository.ts `updateUserPassword` (`prisma.user.update where email`,
data `{password}`); Prisma raises `P2025` when no row has that email. -/
def updateUserPassword (s : Store) (email password : String) :
    Except String (DbUser × Store) :=
  match s.find? (fun u => u.email == email) with
  | none => .error "P2025"
  | some u =>
      .ok ({ u with password := password }
          , s.map (fun v => if v.email == email then { v with password := password } else v))

-- ======================================================
-- password.repository.ts
-- ======================================================

/-- The `select` projection used by `findUserByEmailForReset`. -/
structure ResetLookupRow where
  id : String
  email : String
  resetToken : Option String
  resetTokenExpiry : Option Int
deriving DecidableEq, Repr

/-- Projection of a row to the forgot-password `select` column set. -/
def toResetLookupRow (u : DbUser) : ResetLookupRow :=
  { id := u.id, email := u.email
  , resetToken := u.resetToken, resetTokenExpiry := u.resetTokenExpiry }

/-- password.repository.ts `findUserByEmailForReset` (`findUnique where email`,
select id/email/resetToken/resetTokenExpiry). -/
def findUserByEmailForReset (s : Store) (email : String) : Option ResetLookupRow :=
  (s.find? (fun u => u.email == email)).map toResetLookupRow

/-- The `select` projection used by `findUserByValidToken`. -/
structure ValidTokenRow where
  id : String
  email : String
deriving DecidableEq, Repr

/-- password.repository.ts `findUserByValidToken` (`findFirst where
resetToken = token ∧ resetTokenExpiry ≥ now`, select id/email). A null
`resetTokenExpiry` never satisfies the `gte` filter. -/
def findUserByValidToken (s : Store) (token : String) (now : Int) : Option ValidTokenRow :=
  (s.find? (fun u =>
      u.resetToken == some token &&
      match u.resetTokenExpiry with
      | some e => now ≤ e
      | none => false)).map (fun u => { id := u.id, email := u.email })

/-- password.repository.ts `updateResetToken` (`prisma.user.update where id`,
data `{resetToken, resetTokenExpiry}`); `P2025` when the id is absent. -/
def updateResetToken (s : Store) (userId token : String) (expires : Int) :
    Except String Store :=
  if s.any (fun u => u.id == userId) then
    .ok (s.map (fun v =>
      if v.id == userId then
        { v with resetToken := some token, resetTokenExpiry := some expires }
      else v))
  else .error "P2025"

/-- password.repository.ts `updatePasswordAndClearToken` (`prisma.user.update
where id`, data `{password, resetToken: null, resetTokenExpiry: null}`).
Note the `where` clause is keyed by the user id alone — it is *not*
conditioned on `resetToken` still matching anything. -/
def updatePasswordAndClearToken (s : Store) (userId hashedPassword : String) :
    Except String Store :=
  if s.any (fun u => u.id == userId) then
    .ok (s.map (fun v =>
      if v.id == userId then
        { v with password := hashedPassword, resetToken := none, resetTokenExpiry := none }
      else v))
  else .error "P2025"

-- ======================================================
-- auth.service.ts
-- ======================================================

/-- auth.service.ts `RegisterUserInput`. -/
structure RegisterUserInput where
  name : Option String
  email : String
  password : String
  cep : String
  telefone : String
deriving DecidableEq, Repr

/-- The `{user, token}` value returned by `registerUser`/`loginUser`;
`user` is the JS object left by the `{password: _, ...rest}` spread. -/
structure AuthResult where
  user : List (String × FieldVal)
  token : Jwt
deriving DecidableEq, Repr

/-- auth.service.ts `registerUser`: reject an existing email, hash with
bcrypt cost 12, create the row (translating Prisma `P2002` to
`EMAIL_ALREADY_EXISTS`), issue a JWT for the new identity, and return the
row minus its `password` key together with the token. -/
def registerUser (env : Env) (now : Int) (bhash : Nat → String → String)
    (newId : String) (s : Store) (input : RegisterUserInput) :
    Except String AuthResult × Store :=
  match findUserByEmail s input.email with
  | some _ => (.error "EMAIL_ALREADY_EXISTS", s)
  | none =>
      let hashedPassword := bhash 12 input.password
      match createUser newId s
          { name := input.name, email := input.email, password := hashedPassword
          , cep := input.cep, telefone := input.telefone } with
      | .error code =>
          if code = "P2002" then (.error "EMAIL_ALREADY_EXISTS", s)
          else (.error code, s)
      | .ok (newUser, s') =>
          let token := generateToken env now newUser.id newUser.email
          (.ok { user := userWithoutPassword newUser, token := token }, s')

/-- The login response object: the selected row minus its `password` key. -/
def loginRowWithoutPassword (u : LoginRow) : List (String × FieldVal) :=
  [ ("id", .vStr u.id)
  , ("email", .vStr u.email)
  , ("name", match u.name with | some n => .vStr n | none => .vNull)
  , ("cep", .vStr u.cep)
  , ("telefone", .vStr u.telefone) ]

/-- auth.service.ts `loginUser`: look up by email (absent →
`INVALID_CREDENTIALS`), compare the password with `bcrypt.compare`
(mismatch → the identical `INVALID_CREDENTIALS`), then issue a JWT. -/
def loginUser (env : Env) (now : Int) (bverify : String → String → Bool)
    (s : Store) (email password : String) : Except String AuthResult :=
  match findUserByEmailWithPassword s email with
  | none => .error "INVALID_CREDENTIALS"
  | some user =>
      if bverify password user.password then
        .ok { user := loginRowWithoutPassword user
            , token := generateToken env now user.id user.email }
      else .error "INVALID_CREDENTIALS"

/-- auth.service.ts `updatePassword`: hash the new password at cost 12 and
update the row keyed by email. -/
def updatePassword (bhash : Nat → String → String) (s : Store)
    (email newPassword : String) : Except String String × Store :=
  let hashedPassword := bhash 12 newPassword
  match updateUserPassword s email hashedPassword with
  | .error e => (.error e, s)
  | .ok (u, s') => (.ok u.email, s')

-- ======================================================
-- auth_controller.ts (refactored controller)
-- ======================================================

/-- auth_controller.ts `handleServiceError` lines 68-85: maps the service
error message to an HTTP status and response body. -/
def handleServiceError (msg : String) : Nat × String :=
  if msg = "EMAIL_ALREADY_EXISTS" then
    (409, "Email já cadastrado, por favor use outro Email")
  else if msg = "INVALID_CREDENTIALS" then
    (401, "Credenciais inválidas")
  else
    (500, "Erro interno do servidor")

-- ======================================================
-- password.service.ts
-- ======================================================

/-- The `{success, message}` value returned by the password services. -/
structure ServiceOk where
  success : Bool
  message : String
deriving DecidableEq, Repr

/-- password.service.ts `requestPasswordReset`, second half: generate the
token (the caller supplies the `crypto.randomBytes(32).toString("hex")`
value), persist `resetToken`/`resetTokenExpiry = now + 15min` via
`updateResetToken`, then `await sendPasswordResetEmail`. A dispatch failure
(`emailErr = some msg`) propagates *after* the persist, so the stored token
is not rolled back. -/
def issueResetTokenAndSendEmail (randToken : String) (now : Int)
    (emailErr : Option String) (s : Store) (userId : String) :
    Except String ServiceOk × Store :=
  let expires := now + 15 * 60 * 1000
  match updateResetToken s userId randToken expires with
  | .error e => (.error e, s)
  | .ok s' =>
      match emailErr with
      | some msg => (.error msg, s')
      | none => (.ok { success := true, message := "Email enviado com sucesso" }, s')

/-- password.service.ts `requestPasswordReset`: unknown email → generic
success (after an artificial delay, not modelled); a pending
`resetTokenExpiry` strictly in the future → `RATE_LIMIT:<ceil minutes>`;
otherwise issue a fresh token and request the email dispatch.
`Math.ceil(diffMs/1000/60)` for a positive `diffMs` is
`(diffMs + 59999) / 60000` in integer division. -/
def requestPasswordReset (randToken : String) (now : Int)
    (emailErr : Option String) (s : Store) (email : String) :
    Except String ServiceOk × Store :=
  match findUserByEmailForReset s email with
  | none =>
      (.ok { success := true, message := "Se o email existir, enviaremos instruções" }, s)
  | some user =>
      match user.resetTokenExpiry with
      | some e =>
          if now < e then
            let timeLeft := ((e - now).toNat + 59999) / 60000
            (.error ("RATE_LIMIT:" ++ toString timeLeft), s)
          else issueResetTokenAndSendEmail randToken now emailErr s user.id
      | none => issueResetTokenAndSendEmail randToken now emailErr s user.id

/-- password.service.ts `resetPasswordWithToken`: look up by exact token
match with unexpired expiry (`INVALID_TOKEN` when none), hash the new
password at cost 12, and update password + clear both token columns. -/
def resetPasswordWithToken (bhash : Nat → String → String) (now : Int)
    (s : Store) (token newPassword : String) : Except String ServiceOk × Store :=
  match findUserByValidToken s token now with
  | none => (.error "INVALID_TOKEN", s)
  | some user =>
      let hashedPassword := bhash 12 newPassword
      match updatePasswordAndClearToken s user.id hashedPassword with
      | .error e => (.error e, s)
      | .ok s' => (.ok { success := true, message := "Senha redefinida com sucesso" }, s')

-- ======================================================
-- password.controller.ts (refactored controller, src/unnamed/part_002)
-- ======================================================

/-- part_002 `handleServiceError` lines 71-92: `RATE_LIMIT:<m>` → 429 with
the minutes interpolated, `INVALID_TOKEN` → 401, anything else → generic 500.
JS `message.startsWith("RATE_LIMIT:")` is embedded as a prefix test on the
character sequence. -/
def handlePasswordServiceError (msg : String) : Nat × String :=
  if "RATE_LIMIT:".data.isPrefixOf msg.data then
    let timeLeft := (msg.splitOn ":").getD 1 ""
    (429, "Aguarde " ++ timeLeft ++ " minutos antes de solicitar novo link")
  else if msg = "INVALID_TOKEN" then
    (401, "Token inválido ou expirado")
  else
    (500, "Erro ao processar solicitação. Tente novamente mais tarde.")

-- ======================================================
-- auth.middleware.ts (cookie variant, lines 332-436)
-- ======================================================

/-- The value `jwt.verify` returns on success: a string payload or an
object payload (an association list of claim keys). -/
inductive Decoded where
  | strVal (s : String)
  | objVal (kvs : List (String × String))
deriving DecidableEq, Repr

/-- The outcome of `jwt.verify(token, JWT_SECRET)`: success, a
`TokenExpiredError` (signature valid but past `exp`), or a
`JsonWebTokenError` (bad signature / malformed token). -/
inductive VerifyOutcome where
  | ok (d : Decoded)
  | expiredErr
  | invalidErr
deriving DecidableEq, Repr

/-- What the middleware does with the request: reject with a status and the
`{error, message}` body, or attach `request.user = {userId, email}` and call
`next()`. -/
inductive AuthOutcome where
  | reject (status : Nat) (error message : String)
  | proceed (userId email : String)
deriving DecidableEq, Repr

/-- auth.middleware.ts `authenticateToken` (cookie variant): take the token
from `request.cookies["token"]` (a missing or empty cookie is falsy → 401),
run `jwt.verify`, and dispatch: expired → its own 401 reason; invalid
signature → generic 401; a payload that is not an object carrying both
`userId` and `email` → 401; otherwise attach the identity and continue.
No store is consulted anywhere (the function has no `Store` argument). -/
def authenticateToken (verify : String → VerifyOutcome)
    (cookieToken : Option String) : AuthOutcome :=
  match cookieToken with
  | none =>
      .reject 401 "Token de autenticação não fornecido"
        "É necessário estar autenticado para acessar este recurso"
  | some tok =>
      if tok = "" then
        .reject 401 "Token de autenticação não fornecido"
          "É necessário estar autenticado para acessar este recurso"
      else
        match verify tok with
        | .ok (.objVal kvs) =>
            if (kvs.map Prod.fst).contains "userId" &&
               (kvs.map Prod.fst).contains "email" then
              .proceed ((kvs.lookup "userId").getD "") ((kvs.lookup "email").getD "")
            else
              .reject 401 "Token inválido" "O token não contém as informações necessárias."
        | .ok (.strVal _) =>
            .reject 401 "Token inválido" "O token não contém as informações necessárias."
        | .expiredErr =>
            .reject 401 "Token expirado"
              "Seu token de autenticação expirou. Por favor, faça login novamente."
        | .invalidErr =>
            .reject 401 "Token inválido" "O token fornecido é inválido ou foi adulterado."

-- ======================================================
-- Concurrency harness for the reset flow (spec §4.5 edge case)
-- ======================================================

/-- The write half of `resetPasswordWithToken`, resumed after its token
lookup (`found`) has completed: hash and call `updatePasswordAndClearToken`. -/
def resetWriteStep (bhash : Nat → String → String) (newPassword : String)
    (found : Option ValidTokenRow) (s : Store) : Except String ServiceOk × Store :=
  match found with
  | none => (.error "INVALID_TOKEN", s)
  | some user =>
      match updatePasswordAndClearToken s user.id (bhash 12 newPassword) with
      | .error e => (.error e, s)
      | .ok s' => (.ok { success := true, message := "Senha redefinida com sucesso" }, s')

/-- Two concurrent `resetPasswordWithToken(token, ·)` requests under the
interleaving in which both `findUserByValidToken` awaits resolve before
either `updatePasswordAndClearToken` write is applied; the writes are then
serialised by the store. Returns both results and the final store. -/
def concurrentResets (bhash : Nat → String → String) (now : Int) (s : Store)
    (token pw1 pw2 : String) :
    (Except String ServiceOk) × (Except String ServiceOk) × Store :=
  let f1 := findUserByValidToken s token now
  let f2 := findUserByValidToken s token now
  let (r1, s1) := resetWriteStep bhash pw1 f1 s
  let (r2, s2) := resetWriteStep bhash pw2 f2 s1
  (r1, r2, s2)

-- ======================================================
-- Concrete fixtures for witnesses and counterexamples
-- ======================================================

/-- A concrete stand-in for `bcrypt.hash` (injective per cost, like a hash
with no collisions among the inputs exercised here). -/
def demoHash : Nat → String → String := fun cost p => "bcrypt" ++ toString cost ++ "$" ++ p

/-- A concrete environment with a configured signing secret. -/
def demoEnv : Env := { jwtSecret := some "segredo", jwtExpiresInMs := none }

/-- A stored user with no pending reset token. -/
def demoUser : DbUser :=
  { id := "u1", name := some "Bia", email := "b@x.com"
  , password := "bcrypt12$Antiga1!", cep := "01000-000", telefone := "11990000000"
  , resetToken := none, resetTokenExpiry := none }

/-- A stored user holding a reset token that expires at t = 900000 ms. -/
def demoUserWithToken : DbUser :=
  { id := "u2", name := none, email := "c@x.com"
  , password := "bcrypt12$Velha1!", cep := "02000-000", telefone := "11980000000"
  , resetToken := some "tokenA", resetTokenExpiry := some 900000 }

/-- Scenario A registration input. -/
def demoRegisterInput : RegisterUserInput :=
  { name := some "Ana", email := "a@x.com", password := "Abc12345!"
  , cep := "03000-000", telefone := "11970000000" }

/-- Spec §3 invariant on one credential record: `resetToken` and
`resetTokenExpiry` are both null or both set. -/
def userInv (u : DbUser) : Prop :=
  u.resetToken = none ↔ u.resetTokenExpiry = none

/-- The §3 invariant over the whole store. -/
def storeInv (s : Store) : Prop := ∀ u ∈ s, userInv u

/-- A concrete `jwt.verify` behaviour used by witnesses: one good token, one
expired token, everything else invalid. -/
def demoVerify : String → VerifyOutcome := fun t =>
  if t = "tokenOk" then .ok (.objVal [("userId", "u1"), ("email", "b@x.com")])
  else if t = "tokenExp" then .expiredErr
  else .invalidErr

-- ======================================================
-- Helper lemmas (shared)
-- ======================================================

theorem isPrefixOf_append_self {α : Type} [BEq α] [LawfulBEq α] (l t : List α) :
    l.isPrefixOf (l ++ t) = true := by
  induction l with
  | nil => simp [List.isPrefixOf]
  | cons a as ih => simp [List.isPrefixOf, ih]

theorem storeInv_append_single {s : Store} {u : DbUser}
    (hs : storeInv s) (hu : userInv u) : storeInv (s ++ [u]) := by
  intro v hv
  rcases List.mem_append.mp hv with h | h
  · exact hs v h
  · rcases List.mem_singleton.mp h with rfl
    exact hu

theorem storeInv_map {s : Store} {f : DbUser → DbUser}
    (hf : ∀ u, userInv u → userInv (f u)) (hs : storeInv s) :
    storeInv (s.map f) := by
  intro v hv
  rcases List.mem_map.mp hv with ⟨u, hu, rfl⟩
  exact hf u (hs u hu)

/-- `find?` keyed on the email survives a `map` whose function preserves
emails (the id-keyed Prisma updates never touch the email column). -/
theorem find?_map_email_preserving {g : DbUser → DbUser}
    (hg : ∀ v, (g v).email = v.email) {s : Store} {email : String} {u0 : DbUser}
    (h : s.find? (fun u => u.email == email) = some u0) :
    (s.map g).find? (fun u => u.email == email) = some (g u0) := by
  induction s with
  | nil => simp at h
  | cons a t ih =>
      by_cases ha : (a.email == email) = true
      · rw [List.find?_cons_of_pos (p := fun u => u.email == email) t ha] at h
        obtain rfl : a = u0 := by simpa using h
        have hga : ((g a).email == email) = true := by
          rw [hg a]; exact ha
        rw [List.map_cons]
        exact List.find?_cons_of_pos (p := fun u => u.email == email) (t.map g) hga
      · rw [List.find?_cons_of_neg (p := fun u => u.email == email) t
            (by simpa using ha)] at h
        have hga : ¬((g a).email == email) = true := by
          rw [hg a]; simpa using ha
        rw [List.map_cons]
        rw [List.find?_cons_of_neg (p := fun u => u.email == email) (t.map g) hga]
        exact ih h

-- ======================================================
-- Claim theorems
-- ======================================================

/-- Claim C1, counterexample: registering a fresh user on an empty store
succeeds, yet the returned public user object still carries both the
`resetToken` and the `resetTokenExpiry` keys (the `{password: _, ...rest}`
spread removes only `password`, and `prisma.user.create` returns every
column), contradicting the claim that the view contains no such fields. -/
theorem register_view_keeps_resetToken_key :
    (match (registerUser demoEnv 0 demoHash "u9" [] demoRegisterInput).1 with
     | .ok r => ((r.user.map Prod.fst).contains "resetToken" &&
                 (r.user.map Prod.fst).contains "resetTokenExpiry")
     | .error _ => false) = true := by decide

/-- Claim C1, amended: a successful `registerUser` returns a user view whose
key set is the full column list minus `password`; it has the new `id` and the
input `email`, no `password` key, and a freshly issued session token — but
the `resetToken` and `resetTokenExpiry` keys remain present with null
values. -/
theorem register_public_view (env : Env) (now : Int) (bhash : Nat → String → String)
    (newId : String) (s : Store) (input : RegisterUserInput)
    (hfree : findUserByEmail s input.email = none) :
    ∃ r s',
      registerUser env now bhash newId s input = (.ok r, s') ∧
      r.user.map Prod.fst =
        ["id", "name", "email", "cep", "telefone", "resetToken", "resetTokenExpiry"] ∧
      r.user.lookup "id" = some (.vStr newId) ∧
      r.user.lookup "email" = some (.vStr input.email) ∧
      r.user.lookup "password" = none ∧
      r.user.lookup "resetToken" = some .vNull ∧
      r.user.lookup "resetTokenExpiry" = some .vNull ∧
      r.token = generateToken env now newId input.email := by
  have hany : s.any (fun u => u.email == input.email) = false := by
    rw [List.any_eq_false]
    intro u hu
    have h := List.find?_eq_none.mp hfree u hu
    simpa using h
  have hreg : registerUser env now bhash newId s input =
      (.ok { user := userWithoutPassword
               { id := newId, name := input.name, email := input.email
               , password := bhash 12 input.password, cep := input.cep
               , telefone := input.telefone, resetToken := none, resetTokenExpiry := none }
           , token := generateToken env now newId input.email }
      , s ++ [{ id := newId, name := input.name, email := input.email
              , password := bhash 12 input.password, cep := input.cep
              , telefone := input.telefone, resetToken := none, resetTokenExpiry := none }]) := by
    simp [registerUser, hfree, createUser, hany]
  refine ⟨_, _, hreg, ?_, ?_, ?_, ?_, ?_, ?_, ?_⟩ <;>
    simp [userWithoutPassword, rowFields, List.filter, List.lookup]

/-- Claim C1 witness: the amended statement evaluated at Scenario A on the
empty store. -/
theorem register_public_view_witness :
    ∃ r s',
      registerUser demoEnv 0 demoHash "u9" [] demoRegisterInput = (.ok r, s') ∧
      r.user.map Prod.fst =
        ["id", "name", "email", "cep", "telefone", "resetToken", "resetTokenExpiry"] ∧
      r.user.lookup "id" = some (.vStr "u9") ∧
      r.user.lookup "email" = some (.vStr "a@x.com") ∧
      r.user.lookup "password" = none ∧
      r.user.lookup "resetToken" = some .vNull ∧
      r.user.lookup "resetTokenExpiry" = some .vNull ∧
      r.token = generateToken demoEnv 0 "u9" "a@x.com" :=
  register_public_view demoEnv 0 demoHash "u9" [] demoRegisterInput (by decide)

/-- Claim C2: both `requestPasswordReset` calls succeed, but the absent-email
branch answers "Se o email existir, enviaremos instruções" while the
found-and-not-rate-limited branch answers "Email enviado com sucesso" — the
two success messages differ, so the response body does reveal whether the
account exists, contrary to the claim (and to the code's own
"não revela se o email existe" comment). -/
theorem requestReset_messages_differ :
    (requestPasswordReset "tokenR" 1000 none [demoUser] "zz@x.com").1 =
      .ok { success := true, message := "Se o email existir, enviaremos instruções" } ∧
    (requestPasswordReset "tokenR" 1000 none [demoUser] "b@x.com").1 =
      .ok { success := true, message := "Email enviado com sucesso" } ∧
    ("Se o email existir, enviaremos instruções" : String) ≠ "Email enviado com sucesso" :=
  ⟨rfl, rfl, by decide⟩

/-- Claim C3: under the interleaving in which both reset requests resolve
their `findUserByValidToken` lookup before either write runs, both requests
succeed — `updatePasswordAndClearToken` is keyed by `id` alone, with no
optimistic check that `resetToken` still matches — and the second hash
silently overwrites the first. The claimed loser never sees
`InvalidOrExpiredToken`. -/
theorem concurrent_resets_both_succeed :
    concurrentResets demoHash 1000 [demoUserWithToken] "tokenA" "NovaSenha1!" "NovaSenha2!" =
      (.ok { success := true, message := "Senha redefinida com sucesso" },
       .ok { success := true, message := "Senha redefinida com sucesso" },
       [{ demoUserWithToken with
            password := demoHash 12 "NovaSenha2!"
          , resetToken := none, resetTokenExpiry := none }]) := rfl

/-- Claim C4: if `JWT_SECRET` is absent the process fails fast during module
initialisation (the server's static import chain evaluates
`auth.middleware.ts`'s top-level `getJwtSecret()` before any request is
served); and whenever startup succeeds, the secret that `jwt.util.ts` signs
with is exactly the configured secret, never the fallback substitute. -/
theorem jwt_secret_fail_fast (env : Env) :
    (env.jwtSecret = none →
      serverStartup env = .error "JWT_SECRET não definido nas variáveis de ambiente") ∧
    (serverStartup env = .ok () →
      ∃ s, env.jwtSecret = some s ∧ s ≠ "" ∧ getJwtSecret env = .ok s ∧
        ∀ now uid em, (generateToken env now uid em).signedWith = s) := by
  constructor
  · intro h
    simp [serverStartup, getJwtSecret, h]
  · intro h
    match henv : env.jwtSecret with
    | none => simp [serverStartup, getJwtSecret, henv] at h
    | some s =>
      by_cases hs : s = ""
      · simp [serverStartup, getJwtSecret, henv, hs] at h
      · exact ⟨s, rfl, hs, by simp [getJwtSecret, henv, hs],
          fun now uid em => by simp [generateToken, jwtUtilSecret, henv]⟩

/-- Claim C4 witness: with no `JWT_SECRET` in the environment, startup fails
with the middleware's fatal error. -/
theorem jwt_secret_fail_fast_witness :
    serverStartup { jwtSecret := none, jwtExpiresInMs := none } =
      .error "JWT_SECRET não definido nas variáveis de ambiente" :=
  (jwt_secret_fail_fast { jwtSecret := none, jwtExpiresInMs := none }).1 rfl

/-- Claim C7: a login with an email that has no credential record and a
login with an existing email whose password fails `bcrypt.compare` throw the
identical `INVALID_CREDENTIALS` error, and the controller maps it to the
same 401 response either way — the two failure causes are indistinguishable. -/
theorem login_enumeration_resistant (env : Env) (now : Int)
    (bverify : String → String → Bool) (s : Store)
    (email1 pw1 email2 pw2 : String) (u : LoginRow)
    (h1 : findUserByEmailWithPassword s email1 = none)
    (h2 : findUserByEmailWithPassword s email2 = some u)
    (h3 : bverify pw2 u.password = false) :
    loginUser env now bverify s email1 pw1 = .error "INVALID_CREDENTIALS" ∧
    loginUser env now bverify s email2 pw2 = .error "INVALID_CREDENTIALS" ∧
    handleServiceError "INVALID_CREDENTIALS" = (401, "Credenciais inválidas") := by
  refine ⟨?_, ?_, ?_⟩
  · simp [loginUser, h1]
  · simp [loginUser, h2, h3]
  · decide

/-- Claim C7 witness: concrete unknown email vs. known email with a failing
password check. -/
theorem login_enumeration_resistant_witness :
    loginUser demoEnv 0 (fun _ _ => false) [demoUser] "zz@x.com" "Errada1!" =
      .error "INVALID_CREDENTIALS" ∧
    loginUser demoEnv 0 (fun _ _ => false) [demoUser] "b@x.com" "Errada1!" =
      .error "INVALID_CREDENTIALS" ∧
    handleServiceError "INVALID_CREDENTIALS" = (401, "Credenciais inválidas") :=
  login_enumeration_resistant demoEnv 0 (fun _ _ => false) [demoUser]
    "zz@x.com" "Errada1!" "b@x.com" "Errada1!" (toLoginRow demoUser)
    (by decide) (by decide) rfl

/-- Claim C6: when the stored `resetTokenExpiry` is strictly in the future,
`requestPasswordReset` throws `RATE_LIMIT:m` with
`m = Math.ceil((resetTokenExpiry - now)/1000/60)` and leaves the store
untouched; when the pending expiry lies within the fixed 15-minute window,
`m ∈ (0, 15]` and the controller maps the error to HTTP 429. -/
theorem requestReset_rate_limited (randToken : String) (now : Int)
    (emailErr : Option String) (s : Store) (email : String)
    (row : ResetLookupRow) (e : Int)
    (hfind : findUserByEmailForReset s email = some row)
    (hexp : row.resetTokenExpiry = some e)
    (hfut : now < e) :
    requestPasswordReset randToken now emailErr s email =
      (.error ("RATE_LIMIT:" ++ toString (((e - now).toNat + 59999) / 60000)), s) ∧
    (e ≤ now + 900000 →
      1 ≤ ((e - now).toNat + 59999) / 60000 ∧
      ((e - now).toNat + 59999) / 60000 ≤ 15 ∧
      (handlePasswordServiceError
        ("RATE_LIMIT:" ++ toString (((e - now).toNat + 59999) / 60000))).1 = 429) := by
  constructor
  · simp [requestPasswordReset, hfind, hexp, hfut]
  · intro hwin
    have h1 : 1 ≤ ((e - now).toNat + 59999) / 60000 := by omega
    have h15 : ((e - now).toNat + 59999) / 60000 ≤ 15 := by omega
    refine ⟨h1, h15, ?_⟩
    simp [handlePasswordServiceError, String.data_append, isPrefixOf_append_self]

/-- Claim C6 witness: a second request at t = 1000 ms against a token
expiring at t = 900000 ms is rate limited with 15 minutes left. -/
theorem requestReset_rate_limited_witness :
    requestPasswordReset "tokenB" 1000 none [demoUserWithToken] "c@x.com" =
      (.error ("RATE_LIMIT:" ++
        toString ((((900000 : Int) - 1000).toNat + 59999) / 60000)),
       [demoUserWithToken]) ∧
    1 ≤ (((900000 : Int) - 1000).toNat + 59999) / 60000 ∧
    (((900000 : Int) - 1000).toNat + 59999) / 60000 ≤ 15 ∧
    (handlePasswordServiceError
      ("RATE_LIMIT:" ++ toString ((((900000 : Int) - 1000).toNat + 59999) / 60000))).1
      = 429 := by
  have h := requestReset_rate_limited "tokenB" 1000 none [demoUserWithToken] "c@x.com"
    (toResetLookupRow demoUserWithToken) 900000 (by decide) rfl (by decide)
  have h2 := h.2 (by decide)
  exact ⟨h.1, h2.1, h2.2.1, h2.2.2⟩

/-- Claim C9: every write of the subsystem preserves the invariant that
`resetToken` and `resetTokenExpiry` are both null or both set: creation
leaves both null, the password updates touch neither, token issuance writes
both together, and a successful reset clears both together — at the
repository level and through every service operation. -/
theorem reset_fields_invariant (s : Store) (hinv : storeInv s) :
    (∀ newId d u s', createUser newId s d = .ok (u, s') → storeInv s') ∧
    (∀ email pw u s', updateUserPassword s email pw = .ok (u, s') → storeInv s') ∧
    (∀ uid tok exp s', updateResetToken s uid tok exp = .ok s' → storeInv s') ∧
    (∀ uid hp s', updatePasswordAndClearToken s uid hp = .ok s' → storeInv s') ∧
    (∀ env now bhash newId input,
      storeInv (registerUser env now bhash newId s input).2) ∧
    (∀ bhash email newPw, storeInv (updatePassword bhash s email newPw).2) ∧
    (∀ randTok now emailErr email,
      storeInv (requestPasswordReset randTok now emailErr s email).2) ∧
    (∀ bhash now token newPw,
      storeInv (resetPasswordWithToken bhash now s token newPw).2) := by
  have hcreate : ∀ newId d u s', createUser newId s d = .ok (u, s') → storeInv s' := by
    intro newId d u s' h
    unfold createUser at h
    by_cases hany : s.any (fun v => v.email == d.email)
    · simp [hany] at h
    · simp [hany] at h
      rcases h with ⟨-, rfl⟩
      exact storeInv_append_single hinv (by simp [userInv])
  have hupw : ∀ email pw u s', updateUserPassword s email pw = .ok (u, s') → storeInv s' := by
    intro email pw u s' h
    unfold updateUserPassword at h
    cases hf : s.find? (fun v => v.email == email) with
    | none => rw [hf] at h; exact absurd h (by simp)
    | some w =>
        rw [hf] at h
        simp only [Except.ok.injEq, Prod.mk.injEq] at h
        obtain ⟨-, rfl⟩ := h
        refine storeInv_map (fun v hv => ?_) hinv
        unfold userInv at hv ⊢
        by_cases hve : (v.email == email) = true
        · simp only [hve, if_true]
          exact hv
        · simp only [hve, if_false, Bool.false_eq_true]
          exact hv
  have hurt : ∀ uid tok exp s', updateResetToken s uid tok exp = .ok s' → storeInv s' := by
    intro uid tok exp s' h
    unfold updateResetToken at h
    by_cases hany : s.any (fun v => v.id == uid)
    · simp only [hany, if_true, Except.ok.injEq] at h
      subst h
      refine storeInv_map (fun v hv => ?_) hinv
      unfold userInv at hv ⊢
      by_cases hid : (v.id == uid) = true
      · simp [hid]
      · simp only [hid, if_false, Bool.false_eq_true]
        exact hv
    · simp [hany] at h
  have hupc : ∀ uid hp s', updatePasswordAndClearToken s uid hp = .ok s' → storeInv s' := by
    intro uid hp s' h
    unfold updatePasswordAndClearToken at h
    by_cases hany : s.any (fun v => v.id == uid)
    · simp only [hany, if_true, Except.ok.injEq] at h
      subst h
      refine storeInv_map (fun v hv => ?_) hinv
      unfold userInv at hv ⊢
      by_cases hid : (v.id == uid) = true
      · simp [hid]
      · simp only [hid, if_false, Bool.false_eq_true]
        exact hv
    · simp [hany] at h
  have hissue : ∀ randTok now emailErr uid,
      storeInv (issueResetTokenAndSendEmail randTok now emailErr s uid).2 := by
    intro randTok now emailErr uid
    unfold issueResetTokenAndSendEmail
    dsimp only
    cases emailErr with
    | none =>
        split
        · simpa using hinv
        · rename_i s' heq
          simpa using hurt uid randTok _ s' heq
    | some msg =>
        split
        · simpa using hinv
        · rename_i s' heq
          simpa using hurt uid randTok _ s' heq
  refine ⟨hcreate, hupw, hurt, hupc, ?_, ?_, ?_, ?_⟩
  · intro env now bhash newId input
    unfold registerUser
    dsimp only
    split
    · simpa using hinv
    · split
      · split <;> simpa using hinv
      · rename_i newUser s' heq
        simpa using hcreate newId _ newUser s' heq
  · intro bhash email newPw
    unfold updatePassword
    dsimp only
    split
    · simpa using hinv
    · rename_i u s' heq
      simpa using hupw email (bhash 12 newPw) u s' heq
  · intro randTok now emailErr email
    unfold requestPasswordReset
    dsimp only
    split
    · simpa using hinv
    · split
      · split
        · simpa using hinv
        · exact hissue randTok now emailErr _
      · exact hissue randTok now emailErr _
  · intro bhash now token newPw
    unfold resetPasswordWithToken
    dsimp only
    split
    · simpa using hinv
    · split
      · simpa using hinv
      · rename_i s' heq
        simpa using hupc _ (bhash 12 newPw) s' heq

/-- Claim C9 witness: the invariant holds on the two-user demo store and is
preserved by a token issuance on it. -/
theorem reset_fields_invariant_witness :
    storeInv [demoUser, demoUserWithToken] ∧
    storeInv (requestPasswordReset "tokenC" 1000000 none
      [demoUser, demoUserWithToken] "b@x.com").2 := by
  have hs : storeInv [demoUser, demoUserWithToken] := by
    intro u hu
    rcases List.mem_cons.mp hu with rfl | hu
    · simp [userInv, demoUser]
    · rcases List.mem_singleton.mp hu with rfl
      simp [userInv, demoUserWithToken]
  exact ⟨hs, (reset_fields_invariant [demoUser, demoUserWithToken] hs).2.2.2.2.2.2.1
    "tokenC" 1000000 none "b@x.com"⟩

/-- Claim C5: a successful `resetPasswordWithToken` writes the bcrypt-12 hash
of the new password and clears both `resetToken` and `resetTokenExpiry`; a
second call with the same token then fails with `INVALID_TOKEN`; and, in
general, any call whose token matches no record with `resetTokenExpiry ≥ now`
fails with `INVALID_TOKEN` leaving the store untouched. The token-uniqueness
hypothesis reflects the 256-bit random draw (two records never share a live
token). -/
theorem reset_single_use (bhash : Nat → String → String) (now now2 : Int)
    (s : Store) (token newPw pw2 : String) (row : ValidTokenRow)
    (hfind : findUserByValidToken s token now = some row)
    (huniq : ∀ u ∈ s, u.resetToken = some token → u.id = row.id) :
    (∃ s₁,
      resetPasswordWithToken bhash now s token newPw =
        (.ok { success := true, message := "Senha redefinida com sucesso" }, s₁) ∧
      (∀ v ∈ s₁, v.id = row.id →
        v.password = bhash 12 newPw ∧ v.resetToken = none ∧ v.resetTokenExpiry = none) ∧
      resetPasswordWithToken bhash now2 s₁ token pw2 = (.error "INVALID_TOKEN", s₁)) ∧
    (∀ (s₀ : Store) (n₀ : Int) (t₀ pw₀ : String),
      (∀ u ∈ s₀, ¬(u.resetToken = some t₀ ∧ ∃ e, u.resetTokenExpiry = some e ∧ n₀ ≤ e)) →
      resetPasswordWithToken bhash n₀ s₀ t₀ pw₀ = (.error "INVALID_TOKEN", s₀)) := by
  have hgen : ∀ (s₀ : Store) (n₀ : Int) (t₀ pw₀ : String),
      (∀ u ∈ s₀, ¬(u.resetToken = some t₀ ∧ ∃ e, u.resetTokenExpiry = some e ∧ n₀ ≤ e)) →
      resetPasswordWithToken bhash n₀ s₀ t₀ pw₀ = (.error "INVALID_TOKEN", s₀) := by
    intro s₀ n₀ t₀ pw₀ hno
    have hnone : findUserByValidToken s₀ t₀ n₀ = none := by
      unfold findUserByValidToken
      rw [Option.map_eq_none', List.find?_eq_none]
      intro u hu hp
      rw [Bool.and_eq_true] at hp
      obtain ⟨h1, h2⟩ := hp
      apply hno u hu
      refine ⟨eq_of_beq h1, ?_⟩
      cases hexp : u.resetTokenExpiry with
      | none => rw [hexp] at h2; simp at h2
      | some e => rw [hexp] at h2; exact ⟨e, rfl, by simpa using h2⟩
    simp [resetPasswordWithToken, hnone]
  obtain ⟨u0, hu0, hrowEq⟩ :=
    Option.map_eq_some'.mp (by simpa [findUserByValidToken] using hfind)
  have hmem : u0 ∈ s := List.mem_of_find?_eq_some hu0
  have hid : row.id = u0.id := by
    have := congrArg ValidTokenRow.id hrowEq
    exact this.symm
  have hany : (s.any fun v => v.id == row.id) = true := by
    refine List.any_eq_true.mpr ⟨u0, hmem, ?_⟩
    rw [hid]
    simp
  have hupd : updatePasswordAndClearToken s row.id (bhash 12 newPw) =
      .ok (s.map (fun v =>
        if v.id == row.id then
          { v with password := bhash 12 newPw, resetToken := none, resetTokenExpiry := none }
        else v)) := by
    unfold updatePasswordAndClearToken
    rw [if_pos hany]
  refine ⟨⟨s.map (fun v =>
      if v.id == row.id then
        { v with password := bhash 12 newPw, resetToken := none, resetTokenExpiry := none }
      else v), ?_, ?_, ?_⟩, hgen⟩
  · simp [resetPasswordWithToken, hfind, hupd]
  · intro v hv hvid
    obtain ⟨w, hw, rfl⟩ := List.mem_map.mp hv
    by_cases hwid : (w.id == row.id) = true
    · simp [hwid]
    · exfalso
      apply hwid
      simp only [hwid, if_neg, Bool.false_eq_true, if_false] at hvid
      rw [hvid]
      simp
  · have hnone : findUserByValidToken (s.map (fun v =>
        if v.id == row.id then
          { v with password := bhash 12 newPw, resetToken := none, resetTokenExpiry := none }
        else v)) token now2 = none := by
      unfold findUserByValidToken
      rw [Option.map_eq_none', List.find?_eq_none]
      intro v hv
      obtain ⟨w, hw, rfl⟩ := List.mem_map.mp hv
      by_cases hwid : (w.id == row.id) = true
      · simp [hwid]
      · simp only [hwid, Bool.false_eq_true, if_false]
        intro hp
        rw [Bool.and_eq_true] at hp
        apply hwid
        rw [huniq w hw (eq_of_beq hp.1)]
        simp
    unfold resetPasswordWithToken
    rw [hnone]

/-- Claim C5 witness: the reset flow on the demo store holding a live token
at t = 1000 ms, with a replay attempt at t = 2000 ms. -/
theorem reset_single_use_witness :
    ∃ s₁,
      resetPasswordWithToken demoHash 1000 [demoUserWithToken] "tokenA" "NovaSenha1!" =
        (.ok { success := true, message := "Senha redefinida com sucesso" }, s₁) ∧
      (∀ v ∈ s₁, v.id = ({ id := "u2", email := "c@x.com" } : ValidTokenRow).id →
        v.password = demoHash 12 "NovaSenha1!" ∧
        v.resetToken = none ∧ v.resetTokenExpiry = none) ∧
      resetPasswordWithToken demoHash 2000 s₁ "tokenA" "OutraSenha2!" =
        (.error "INVALID_TOKEN", s₁) :=
  (reset_single_use demoHash 1000 2000 [demoUserWithToken] "tokenA"
    "NovaSenha1!" "OutraSenha2!" { id := "u2", email := "c@x.com" }
    (by decide)
    (by
      intro u hu h
      rcases List.mem_singleton.mp hu with rfl
      rfl)).1

/-- Claim C10: when `sendPasswordResetEmail` throws after the fresh token was
persisted, `requestPasswordReset` propagates the error — mapped by the
controller to the generic 500 — while the store keeps the new
`resetToken`/`resetTokenExpiry` (no rollback); any later `requestPasswordReset`
for that email before the expiry is then rate limited even though no email
was delivered. -/
theorem email_failure_keeps_token (randToken : String) (now : Int) (s : Store)
    (email msg : String) (row : ResetLookupRow)
    (hfind : findUserByEmailForReset s email = some row)
    (hnopending : ∀ e, row.resetTokenExpiry = some e → e ≤ now)
    (hmsg1 : "RATE_LIMIT:".data.isPrefixOf msg.data = false)
    (hmsg2 : msg ≠ "INVALID_TOKEN")
    (now2 : Int) (hnow2 : now2 < now + 15 * 60 * 1000)
    (randTok2 : String) (emailErr2 : Option String) :
    ∃ s',
      requestPasswordReset randToken now (some msg) s email = (.error msg, s') ∧
      handlePasswordServiceError msg =
        (500, "Erro ao processar solicitação. Tente novamente mais tarde.") ∧
      findUserByEmailForReset s' email =
        some { id := row.id, email := row.email
             , resetToken := some randToken, resetTokenExpiry := some (now + 15 * 60 * 1000) } ∧
      requestPasswordReset randTok2 now2 emailErr2 s' email =
        (.error ("RATE_LIMIT:" ++
          toString (((now + 15 * 60 * 1000 - now2).toNat + 59999) / 60000)), s') := by
  obtain ⟨u0, hu0, hrowEq⟩ :=
    Option.map_eq_some'.mp (by simpa [findUserByEmailForReset] using hfind)
  have hmem : u0 ∈ s := List.mem_of_find?_eq_some hu0
  have hid : row.id = u0.id := by rw [← hrowEq]; rfl
  have hemail : row.email = u0.email := by rw [← hrowEq]; rfl
  have hany : (s.any fun v => v.id == row.id) = true := by
    refine List.any_eq_true.mpr ⟨u0, hmem, ?_⟩
    rw [hid]
    simp
  have hupd : updateResetToken s row.id randToken (now + 15 * 60 * 1000) =
      .ok (s.map (fun v =>
        if v.id == row.id then
          { v with resetToken := some randToken, resetTokenExpiry := some (now + 15 * 60 * 1000) }
        else v)) := by
    unfold updateResetToken
    rw [if_pos hany]
  have hissueEq : issueResetTokenAndSendEmail randToken now (some msg) s row.id =
      (.error msg, s.map (fun v =>
        if v.id == row.id then
          { v with resetToken := some randToken, resetTokenExpiry := some (now + 15 * 60 * 1000) }
        else v)) := by
    unfold issueResetTokenAndSendEmail
    dsimp only
    rw [hupd]
  have hfirst : requestPasswordReset randToken now (some msg) s email =
      (.error msg, s.map (fun v =>
        if v.id == row.id then
          { v with resetToken := some randToken, resetTokenExpiry := some (now + 15 * 60 * 1000) }
        else v)) := by
    unfold requestPasswordReset
    rw [hfind]
    dsimp only
    cases hexp : row.resetTokenExpiry with
    | none => exact hissueEq
    | some e =>
        have hle : ¬ now < e := not_lt.mpr (hnopending e hexp)
        dsimp only
        rw [if_neg hle]
        exact hissueEq
  have hfind2 : findUserByEmailForReset (s.map (fun v =>
      if v.id == row.id then
        { v with resetToken := some randToken, resetTokenExpiry := some (now + 15 * 60 * 1000) }
      else v)) email =
      some { id := row.id, email := row.email
           , resetToken := some randToken, resetTokenExpiry := some (now + 15 * 60 * 1000) } := by
    unfold findUserByEmailForReset
    have hpres : ∀ v : DbUser,
        ((fun v : DbUser =>
          if v.id == row.id then
            { v with resetToken := some randToken, resetTokenExpiry := some (now + 15 * 60 * 1000) }
          else v) v).email = v.email := by
      intro v
      by_cases hv : (v.id == row.id) = true
      · simp [hv]
      · simp [hv]
    rw [find?_map_email_preserving hpres hu0]
    have hg : (if u0.id == row.id then
        { u0 with resetToken := some randToken, resetTokenExpiry := some (now + 15 * 60 * 1000) }
      else u0) =
        { u0 with resetToken := some randToken, resetTokenExpiry := some (now + 15 * 60 * 1000) } := by
      rw [hid]
      simp
    rw [hg]
    rw [hid, hemail]
    rfl
  refine ⟨_, hfirst, ?_, hfind2, ?_⟩
  · simp [handlePasswordServiceError, hmsg1, hmsg2]
  · unfold requestPasswordReset
    rw [hfind2]
    dsimp only
    rw [if_pos hnow2]

/-- Claim C10 witness: dispatch failure at t = 1000 ms for the demo user,
followed by a retry at t = 2000 ms. -/
theorem email_failure_keeps_token_witness :
    ∃ s',
      requestPasswordReset "tokenC" 1000 (some "falha no envio do email")
          [demoUser] "b@x.com" = (.error "falha no envio do email", s') ∧
      handlePasswordServiceError "falha no envio do email" =
        (500, "Erro ao processar solicitação. Tente novamente mais tarde.") ∧
      findUserByEmailForReset s' "b@x.com" =
        some { id := (toResetLookupRow demoUser).id
             , email := (toResetLookupRow demoUser).email
             , resetToken := some "tokenC"
             , resetTokenExpiry := some ((1000 : Int) + 15 * 60 * 1000) } ∧
      requestPasswordReset "tokenD" 2000 none s' "b@x.com" =
        (.error ("RATE_LIMIT:" ++
          toString ((((1000 : Int) + 15 * 60 * 1000 - 2000).toNat + 59999) / 60000)), s') :=
  email_failure_keeps_token "tokenC" 1000 [demoUser] "b@x.com"
    "falha no envio do email" (toResetLookupRow demoUser)
    (by decide)
    (by intro e h; exact Option.noConfusion h)
    (by decide) (by decide) 2000 (by decide) "tokenD" none

/-- Claim C8: `authenticateToken` always yields exactly one of four outcomes —
401 for a missing (or empty, hence falsy) cookie token; 401 with the distinct
"Token expirado" reason when `jwt.verify` reports a valid signature past
expiry; 401 with the generic "Token inválido" reason when the signature is
bad or the payload is not an object carrying `userId` and `email`; or success
attaching exactly the token's `userId`/`email` to the request. The embedding
takes no store argument, mirroring the source's absence of any DB lookup. -/
theorem authenticate_gate_cases (verify : String → VerifyOutcome) :
    (∀ tok : Option String,
      authenticateToken verify tok =
        .reject 401 "Token de autenticação não fornecido"
          "É necessário estar autenticado para acessar este recurso" ∨
      authenticateToken verify tok =
        .reject 401 "Token expirado"
          "Seu token de autenticação expirou. Por favor, faça login novamente." ∨
      (∃ m, authenticateToken verify tok = .reject 401 "Token inválido" m) ∨
      (∃ uid em, authenticateToken verify tok = .proceed uid em)) ∧
    (authenticateToken verify none =
      .reject 401 "Token de autenticação não fornecido"
        "É necessário estar autenticado para acessar este recurso") ∧
    (authenticateToken verify (some "") =
      .reject 401 "Token de autenticação não fornecido"
        "É necessário estar autenticado para acessar este recurso") ∧
    (∀ t, t ≠ "" → verify t = .expiredErr →
      authenticateToken verify (some t) =
        .reject 401 "Token expirado"
          "Seu token de autenticação expirou. Por favor, faça login novamente.") ∧
    (∀ t, t ≠ "" → verify t = .invalidErr →
      authenticateToken verify (some t) =
        .reject 401 "Token inválido" "O token fornecido é inválido ou foi adulterado.") ∧
    (∀ t str, t ≠ "" → verify t = .ok (.strVal str) →
      authenticateToken verify (some t) =
        .reject 401 "Token inválido" "O token não contém as informações necessárias.") ∧
    (∀ t kvs, t ≠ "" → verify t = .ok (.objVal kvs) →
      ((kvs.map Prod.fst).contains "userId" = false ∨
       (kvs.map Prod.fst).contains "email" = false) →
      authenticateToken verify (some t) =
        .reject 401 "Token inválido" "O token não contém as informações necessárias.") ∧
    (∀ t kvs, t ≠ "" → verify t = .ok (.objVal kvs) →
      (kvs.map Prod.fst).contains "userId" = true →
      (kvs.map Prod.fst).contains "email" = true →
      authenticateToken verify (some t) =
        .proceed ((kvs.lookup "userId").getD "") ((kvs.lookup "email").getD "")) ∧
    (("Token expirado" : String) ≠ "Token inválido" ∧
     ("Token expirado" : String) ≠ "Token de autenticação não fornecido") := by
  have hff2 : ∀ kvs : List (String × String),
      ¬ (kvs.map Prod.fst).contains "email" = true →
      ((kvs.map Prod.fst).contains "userId" && (kvs.map Prod.fst).contains "email") = false := by
    intro kvs h2
    have h2f : (kvs.map Prod.fst).contains "email" = false := by simpa using h2
    rw [h2f, Bool.and_false]
  have hff1 : ∀ kvs : List (String × String),
      ¬ (kvs.map Prod.fst).contains "userId" = true →
      ((kvs.map Prod.fst).contains "userId" && (kvs.map Prod.fst).contains "email") = false := by
    intro kvs h1
    have h1f : (kvs.map Prod.fst).contains "userId" = false := by simpa using h1
    rw [h1f, Bool.false_and]
  have htt : ∀ kvs : List (String × String),
      (kvs.map Prod.fst).contains "userId" = true →
      (kvs.map Prod.fst).contains "email" = true →
      ((kvs.map Prod.fst).contains "userId" && (kvs.map Prod.fst).contains "email") = true := by
    intro kvs h1 h2
    rw [h1, h2, Bool.and_self]
  have hdisp : ∀ tok : Option String,
      authenticateToken verify tok =
        .reject 401 "Token de autenticação não fornecido"
          "É necessário estar autenticado para acessar este recurso" ∨
      authenticateToken verify tok =
        .reject 401 "Token expirado"
          "Seu token de autenticação expirou. Por favor, faça login novamente." ∨
      (∃ m, authenticateToken verify tok = .reject 401 "Token inválido" m) ∨
      (∃ uid em, authenticateToken verify tok = .proceed uid em) := by
    intro tok
    cases tok with
    | none => left; rfl
    | some t =>
        by_cases ht : t = ""
        · subst ht; left; simp [authenticateToken]
        · cases hv : verify t with
          | expiredErr => right; left; simp [authenticateToken, ht, hv]
          | invalidErr =>
              right; right; left
              refine ⟨"O token fornecido é inválido ou foi adulterado.", ?_⟩
              simp [authenticateToken, ht, hv]
          | ok d =>
              cases d with
              | strVal str =>
                  right; right; left
                  refine ⟨"O token não contém as informações necessárias.", ?_⟩
                  simp [authenticateToken, ht, hv]
              | objVal kvs =>
                  by_cases h1 : (kvs.map Prod.fst).contains "userId" = true
                  · by_cases h2 : (kvs.map Prod.fst).contains "email" = true
                    · right; right; right
                      refine ⟨(kvs.lookup "userId").getD "", (kvs.lookup "email").getD "", ?_⟩
                      simp only [authenticateToken]
                      rw [if_neg ht, hv]
                      dsimp only
                      rw [htt kvs h1 h2]
                      rfl
                    · right; right; left
                      refine ⟨"O token não contém as informações necessárias.", ?_⟩
                      simp only [authenticateToken]
                      rw [if_neg ht, hv]
                      dsimp only
                      rw [hff2 kvs h2]
                      rfl
                  · right; right; left
                    refine ⟨"O token não contém as informações necessárias.", ?_⟩
                    simp only [authenticateToken]
                    rw [if_neg ht, hv]
                    dsimp only
                    rw [hff1 kvs h1]
                    rfl
  refine ⟨hdisp, rfl, by simp [authenticateToken], ?_, ?_, ?_, ?_, ?_, by decide, by decide⟩
  · intro t ht hv
    simp [authenticateToken, ht, hv]
  · intro t ht hv
    simp [authenticateToken, ht, hv]
  · intro t str ht hv
    simp [authenticateToken, ht, hv]
  · intro t kvs ht hv hmiss
    rcases hmiss with h | h
    · have h1 : ¬ (kvs.map Prod.fst).contains "userId" = true := by
        rw [h]; exact Bool.false_ne_true
      simp only [authenticateToken]
      rw [if_neg ht, hv]
      dsimp only
      rw [hff1 kvs h1]
      rfl
    · have h2 : ¬ (kvs.map Prod.fst).contains "email" = true := by
        rw [h]; exact Bool.false_ne_true
      simp only [authenticateToken]
      rw [if_neg ht, hv]
      dsimp only
      rw [hff2 kvs h2]
      rfl
  · intro t kvs ht hv h1 h2
    simp only [authenticateToken]
    rw [if_neg ht, hv]
    dsimp only
    rw [htt kvs h1 h2]
    rfl

/-- Claim C8 witness: the demo verifier drives the gate into the success,
expired and no-token outcomes. -/
theorem authenticate_gate_cases_witness :
    authenticateToken demoVerify (some "tokenOk") =
      .proceed (([("userId", "u1"), ("email", "b@x.com")].lookup "userId").getD "")
               (([("userId", "u1"), ("email", "b@x.com")].lookup "email").getD "") ∧
    authenticateToken demoVerify (some "tokenExp") =
      .reject 401 "Token expirado"
        "Seu token de autenticação expirou. Por favor, faça login novamente." ∧
    authenticateToken demoVerify none =
      .reject 401 "Token de autenticação não fornecido"
        "É necessário estar autenticado para acessar este recurso" := by
  refine ⟨?_, ?_, ?_⟩
  · exact (authenticate_gate_cases demoVerify).2.2.2.2.2.2.2.1 "tokenOk"
      [("userId", "u1"), ("email", "b@x.com")] (by decide) (by decide) (by decide) (by decide)
  · exact (authenticate_gate_cases demoVerify).2.2.2.1 "tokenExp" (by decide) (by decide)
  · exact (authenticate_gate_cases demoVerify).2.1

end Hamburgeria
